import Mathlib

/-!
Verification of the `db` package of `stori-utils-go`: a dual-pool Postgres
connector (`AWSDB`) that routes SQL statements to a read-only or read-write
connection pool based on a statement classifier (`getProxyFromSQL`), manages
sentinel errors for absent pools, and concurrently establishes pools with
short-lived IAM credentials.

The external collaborators (the `postgresql-parser` library, the `pgxpool`
pool implementation, and the `aws` secret/token helpers) are abstracted as
fields of a `Model` structure: the embedded functions below are parametric in
them, exactly as the Go code is generic in the behaviour of those libraries.
Every definition mirrors the corresponding Go function from `package db`
(file `db.go`); doc comments name the source function.

Go `error` values are modelled by the inductive `GoError`: `errors.New`
produces an unwrapped leaf, and an error built by message formatting
(`fmt.Errorf` with a `%v` verb, as the package uses) is also a leaf whose
message embeds the cause's rendered text, with no unwrap chain; `GoError.wrap`
stands for `fmt.Errorf` with `%w` (unused by this package but needed to state
`errors.Is` faithfully). `errors.Is` walks the unwrap chain; distinct sentinel
messages stand for distinct error identities.
-/

/-- Go error values: a leaf (errors.New, or fmt.Errorf with only %v verbs) has
no unwrap chain; a wrap (fmt.Errorf with %w) unwraps to its cause. -/
inductive GoError where
  | leaf (msg : String)
  | wrap (msg : String) (cause : GoError)
deriving DecidableEq

/-- The Error() string of a Go error. -/
def GoError.message : GoError → String
  | .leaf m => m
  | .wrap m _ => m

/-- errors.New from the Go standard library. -/
def errorsNew (s : String) : GoError := .leaf s

/-- errors.Is from the Go standard library: target identity is looked for
along the unwrap chain of the first argument. -/
def errorsIs : GoError → GoError → Bool
  | e@(.leaf _), target => e = target
  | e@(.wrap _ c), target => e = target || errorsIs c target

/-- type DBProxies string -/
abbrev DBProxies := String

/-- const Read = DBProxies("read") -/
def Read : DBProxies := "read"

/-- const Write = DBProxies("write") -/
def Write : DBProxies := "write"

/-- const ReadAndWrite = DBProxies("readAndWrite") -/
def ReadAndWrite : DBProxies := "readAndWrite"

/-- var secretNames = map[DBProxies]string: the fixed role-keyed secret names;
lookup of any other key yields the Go zero value "". -/
def secretNames (dp : DBProxies) : String :=
  if dp = Read then "core_iam_user_read"
  else if dp = Write then "core_iam_user_write"
  else ""

/-- var ErrReaderNotCreated = errors.New("reader pool not created") -/
def ErrReaderNotCreated : GoError := errorsNew "reader pool not created"

/-- var ErrWriterNotCreated = errors.New("writer pool not created") -/
def ErrWriterNotCreated : GoError := errorsNew "writer pool not created"

/-- The external collaborators of package db, abstracted: the SQL parser
(`parser.Parse`, `tree.CanWriteData`, `tree.CanModifySchema`), the pgxpool
operations used through `d.reader` / `d.writer`, and the credential layer
(`(*dbSecret).getValuesAWS` composed of aws.GetSecret + json.Unmarshal, and
`dbSecret.dbOpen`). The embedded db functions are parametric in a Model the
same way the Go code defers to these libraries. -/
structure Model where
  Stmt : Type
  Pool : Type
  Secret : Type
  Arg : Type
  Rows : Type
  PoolRow : Type
  Tx : Type
  CommandTag : Type
  parse : String → Except GoError (List Stmt)
  canWriteData : Stmt → Bool
  canModifySchema : Stmt → Bool
  poolQuery : Pool → String → List Arg → Except GoError Rows
  poolQueryRow : Pool → String → List Arg → PoolRow
  poolRowScan : PoolRow → Option GoError
  poolExec : Pool → String → List Arg → Except GoError CommandTag
  poolBegin : Pool → Except GoError Tx
  poolBeginFunc : Pool → (Tx → Option GoError) → Option GoError
  poolPing : Pool → Option GoError
  getSecret : String → Except GoError Secret
  dbOpen : Secret → Except GoError Pool

/-- struct AWSDB: at most one reader pool and at most one writer pool, each
a nilable field (None models a nil *pgxpool.Pool). -/
structure AWSDB (M : Model) where
  reader : Option M.Pool
  writer : Option M.Pool

/-- func getProxyFromSQL(sql string) (DBProxies, error): parse the SQL, and
return Write as soon as any statement of the batch can write data or modify
schema, Read when none can; a parse failure is returned as the error (the Go
function returns the zero DBProxies "" with the error, which the Except
models as carrying no role). The loop with its early return on the first
writing statement is rendered by List.any. -/
def getProxyFromSQL (M : Model) (sql : String) : Except GoError DBProxies :=
  match M.parse sql with
  | .error e => .error e
  | .ok stmts =>
    if stmts.any (fun s => M.canWriteData s || M.canModifySchema s) then .ok Write
    else .ok Read

/-- The error Query and QueryRow build from a classification failure:
fmt.Errorf("could not parse sql string: %v", err). The %v verb renders the
cause's message into the new text and keeps no unwrap chain. -/
def wrapParseErr (e : GoError) : GoError :=
  .leaf ("could not parse sql string: " ++ e.message)

/-- func (d *AWSDB) Query: classify the SQL; wrap a classification failure;
dispatch to the pool the classifier selected, returning the matching sentinel
when that pool is nil. The Go switch on the proxy (case Read, case Write,
default) is rendered as the if-chain. -/
def AWSDB.Query {M : Model} (d : AWSDB M) (sql : String) (args : List M.Arg) :
    Except GoError M.Rows :=
  match getProxyFromSQL M sql with
  | .error err => .error (wrapParseErr err)
  | .ok proxy =>
    if proxy = Read then
      match d.reader with
      | none => .error ErrReaderNotCreated
      | some r => M.poolQuery r sql args
    else if proxy = Write then
      match d.writer with
      | none => .error ErrWriterNotCreated
      | some w => M.poolQuery w sql args
    else .error (errorsNew "error getting db proxy")

/-- The pgx.Row values QueryRow can return: either the package's own
DBProxyError (a struct holding an error, returned in place of a row so the
error surfaces at Scan time) or a native row of the selected pool. -/
inductive PgxRow (M : Model) where
  | dbProxyError (err : GoError)
  | poolRow (r : M.PoolRow)

/-- func (d DBProxyError) Scan(dest ...interface{}) error { return d.err },
extended over native pool rows by the pool's own Scan. -/
def PgxRow.scan {M : Model} : PgxRow M → Option GoError
  | .dbProxyError e => some e
  | .poolRow r => M.poolRowScan r

/-- func (d *AWSDB) QueryRow: same classification and dispatch as Query, but
every pre-dispatch failure (parse error, absent pool, impossible proxy value)
is returned as a DBProxyError row whose Scan yields the error. -/
def AWSDB.QueryRow {M : Model} (d : AWSDB M) (sql : String) (args : List M.Arg) :
    PgxRow M :=
  match getProxyFromSQL M sql with
  | .error err => .dbProxyError (wrapParseErr err)
  | .ok proxy =>
    if proxy = Read then
      match d.reader with
      | none => .dbProxyError ErrReaderNotCreated
      | some r => .poolRow (M.poolQueryRow r sql args)
    else if proxy = Write then
      match d.writer with
      | none => .dbProxyError ErrWriterNotCreated
      | some w => .poolRow (M.poolQueryRow w sql args)
    else .dbProxyError (errorsNew "error getting db proxy")

/-- func (d *AWSDB) Exec: always the writer pool, sentinel when it is nil. -/
def AWSDB.Exec {M : Model} (d : AWSDB M) (sql : String) (args : List M.Arg) :
    Except GoError M.CommandTag :=
  match d.writer with
  | none => .error ErrWriterNotCreated
  | some w => M.poolExec w sql args

/-- func (d *AWSDB) Begin: always the writer pool, sentinel when it is nil. -/
def AWSDB.Begin {M : Model} (d : AWSDB M) : Except GoError M.Tx :=
  match d.writer with
  | none => .error ErrWriterNotCreated
  | some w => M.poolBegin w

/-- func (d *AWSDB) BeginFunc: always the writer pool, sentinel when it is
nil; otherwise the pool's own BeginFunc runs the caller's work f. -/
def AWSDB.BeginFunc {M : Model} (d : AWSDB M) (f : M.Tx → Option GoError) :
    Option GoError :=
  match d.writer with
  | none => some ErrWriterNotCreated
  | some w => M.poolBeginFunc w f

/-- The network round trips the connector can perform while establishing a
pool, used to state that a code path does no network I/O: the secret fetch of
(*dbSecret).getValuesAWS, the pool open of dbSecret.dbOpen, and the liveness
check (*pgxpool.Pool).Ping. -/
inductive NetEvent where
  | secretFetch (name : String)
  | poolOpen (role : DBProxies)
  | ping (role : DBProxies)
deriving DecidableEq

/-- func (db *AWSDB) connect(ctx, dp, c, wg): fetch the role's secret, open
the pool into the role's field, ping it; the first failure is the error sent
on the channel (here the Option GoError of the result) and ends the attempt.
The Go assignment `db.reader, err = rs.dbOpen(ctx)` stores dbOpen's pool
return value in the field before err is tested, so on an open failure the
field holds dbOpen's nil pool, and on a ping failure it keeps the opened
pool. The result also lists the network round trips performed. -/
def AWSDB.connect {M : Model} (d : AWSDB M) (dp : DBProxies) :
    AWSDB M × Option GoError × List NetEvent :=
  match M.getSecret (secretNames dp) with
  | .error e => (d, some e, [.secretFetch (secretNames dp)])
  | .ok rs =>
    if dp = Read then
      match M.dbOpen rs with
      | .error e =>
        ({ d with reader := none }, some e,
          [.secretFetch (secretNames dp), .poolOpen dp])
      | .ok p =>
        match M.poolPing p with
        | some e =>
          ({ d with reader := some p }, some e,
            [.secretFetch (secretNames dp), .poolOpen dp, .ping dp])
        | none =>
          ({ d with reader := some p }, none,
            [.secretFetch (secretNames dp), .poolOpen dp, .ping dp])
    else if dp = Write then
      match M.dbOpen rs with
      | .error e =>
        ({ d with writer := none }, some e,
          [.secretFetch (secretNames dp), .poolOpen dp])
      | .ok p =>
        match M.poolPing p with
        | some e =>
          ({ d with writer := some p }, some e,
            [.secretFetch (secretNames dp), .poolOpen dp, .ping dp])
        | none =>
          ({ d with writer := some p }, none,
            [.secretFetch (secretNames dp), .poolOpen dp, .ping dp])
    else
      (d, none, [.secretFetch (secretNames dp)])

/-- func (db *AWSDB) NewConnection(ctx, dp): launch connect for the requested
role (both roles for ReadAndWrite), then drain the error channel, returning
the first error received, or nil once the wait-group closes the channel. Any
other role returns the configuration error at once, launching nothing. The
two concurrent connects of ReadAndWrite touch disjoint fields (reader and
writer); they are sequentialised here Read first, and the first error in that
order models the first error received from the channel. -/
def AWSDB.NewConnection {M : Model} (d : AWSDB M) (dp : DBProxies) :
    AWSDB M × Option GoError × List NetEvent :=
  if dp = Read then d.connect Read
  else if dp = Write then d.connect Write
  else if dp = ReadAndWrite then
    match d.connect Read with
    | (d1, e1, ev1) =>
      match d1.connect Write with
      | (d2, e2, ev2) => (d2, e1 <|> e2, ev1 ++ ev2)
  else (d, some (errorsNew "read, write, or readAndWrite not provided"), [])

/-- The BeforeConnect callback installed by dbSecret.dbOpen: before each
physical connection, when the current time is after the cached expiry
(now.After(ds.exp)), mint a fresh RDS auth token as the connection password
and cache the new expiry as 890 seconds from now. Instants are seconds as
integers; `now` is the callback's first time.Now() sample and `now2` its
second (taken just after the token mint, so now ≤ now2 in any real run); the
token mint aws.GetRDSAuthToken is abstracted as its result `getTok`. The
callback returns the connection password and cached expiry it leaves behind. -/
def beforeConnect (getTok : Except GoError String) (now now2 : Int)
    (password : String) (exp : Int) : Except GoError (String × Int) :=
  if exp < now then
    match getTok with
    | .error e => .error e
    | .ok tok => .ok (tok, now2 + 890)
  else .ok (password, exp)

section Helpers

/-- Helper: the Write and Read role constants are distinct strings. -/
theorem write_ne_read : ¬ (Write = Read) := by decide

/-- Helper: the Read and Write role constants are distinct strings. -/
theorem read_ne_write : ¬ (Read = Write) := by decide

end Helpers

/-- A concrete executable instantiation of the external collaborators, used
to evaluate the embedded functions on concrete inputs: a toy parser that
rejects the string "BAD", splits one fixed mixed batch into its two
statements, and otherwise yields the input as a single statement; write and
schema detection are by lookup of known statements; pools are numbered. -/
@[reducible] def Mtest : Model where
  Stmt := String
  Pool := Nat
  Secret := Unit
  Arg := Unit
  Rows := Nat × String
  PoolRow := Nat × String
  Tx := Nat
  CommandTag := Nat
  parse := fun s =>
    if s = "BAD" then .error (errorsNew "syntax error")
    else if s = "SELECT 1;INSERT INTO t VALUES (1)" then
      .ok ["SELECT 1", "INSERT INTO t VALUES (1)"]
    else .ok [s]
  canWriteData := fun s =>
    s = "INSERT INTO t VALUES (1)" || s = "DELETE FROM t"
  canModifySchema := fun s => s = "CREATE TABLE t(id INT)"
  poolQuery := fun p s _ => .ok (p, s)
  poolQueryRow := fun p s _ => (p, s)
  poolRowScan := fun _ => none
  poolExec := fun p _ _ => .ok p
  poolBegin := fun p => .ok p
  poolBeginFunc := fun p f => f p
  poolPing := fun _ => none
  getSecret := fun _ => .ok ()
  dbOpen := fun _ => .ok 7

/-- A connector with both pools present (reader pool 1, writer pool 2). -/
def dBoth : AWSDB Mtest := ⟨some 1, some 2⟩

/-- A connector with only the reader pool present. -/
def dReadOnly : AWSDB Mtest := ⟨some 1, none⟩

/-- A connector with only the writer pool present. -/
def dWriteOnly : AWSDB Mtest := ⟨none, some 2⟩

/-- A connector with no pools established. -/
def dNone : AWSDB Mtest := ⟨none, none⟩

/-- C1: for every SQL string that parses successfully, getProxyFromSQL
returns Write exactly when some statement of the batch can write data or
modify schema and Read exactly when none can; for every SQL string that
fails to parse, it returns the parse error and no role, and Query/QueryRow
route to neither pool, returning only the wrapped parse error. -/
theorem c1_getProxyFromSQL_classifies (M : Model) (sql : String) :
    (∀ stmts, M.parse sql = .ok stmts →
      (getProxyFromSQL M sql = .ok Write ↔
        ∃ s ∈ stmts, (M.canWriteData s || M.canModifySchema s) = true) ∧
      (getProxyFromSQL M sql = .ok Read ↔
        ∀ s ∈ stmts, (M.canWriteData s || M.canModifySchema s) = false)) ∧
    (∀ e, M.parse sql = .error e →
      getProxyFromSQL M sql = .error e ∧
      ∀ (d : AWSDB M) (args : List M.Arg),
        d.Query sql args = .error (wrapParseErr e) ∧
        d.QueryRow sql args = .dbProxyError (wrapParseErr e)) := by
  constructor
  · intro stmts hp
    unfold getProxyFromSQL
    simp only [hp]
    by_cases ha : stmts.any (fun s => M.canWriteData s || M.canModifySchema s) = true
    · rw [if_pos ha]
      constructor
      · simp only [List.any_eq_true] at ha
        exact ⟨fun _ => ha, fun _ => rfl⟩
      · constructor
        · intro h
          injection h with h
          exact absurd h write_ne_read
        · intro hall
          simp only [List.any_eq_true] at ha
          obtain ⟨s, hs, hw⟩ := ha
          rw [hall s hs] at hw
          cases hw
    · rw [if_neg ha]
      constructor
      · constructor
        · intro h
          injection h with h
          exact absurd h read_ne_write
        · intro hex
          exact absurd (List.any_eq_true.mpr hex) ha
      · simp only [List.any_eq_true] at ha
        push_neg at ha
        constructor
        · intro _ s hs
          have := ha s hs
          cases hb : (M.canWriteData s || M.canModifySchema s) with
          | false => rfl
          | true => exact absurd hb this
        · intro _
          rfl
  · intro e hp
    refine ⟨by unfold getProxyFromSQL; simp only [hp], ?_⟩
    intro d args
    constructor
    · unfold AWSDB.Query getProxyFromSQL
      simp only [hp]
    · unfold AWSDB.QueryRow getProxyFromSQL
      simp only [hp]

/-- C1 witness: on the concrete toy parser, a pure SELECT classifies as Read,
a batch mixing a SELECT and an INSERT classifies as Write, and the
unparsable string yields the parse error with Query refusing to dispatch. -/
theorem c1_witness :
    getProxyFromSQL Mtest "SELECT 1" = .ok Read ∧
    getProxyFromSQL Mtest "SELECT 1;INSERT INTO t VALUES (1)" = .ok Write ∧
    dBoth.Query "BAD" [] = .error (wrapParseErr (errorsNew "syntax error")) := by
  refine ⟨?_, ?_, ?_⟩
  · exact ((c1_getProxyFromSQL_classifies Mtest "SELECT 1").1 ["SELECT 1"]
      rfl).2.mpr (by decide)
  · exact ((c1_getProxyFromSQL_classifies Mtest
      "SELECT 1;INSERT INTO t VALUES (1)").1
      ["SELECT 1", "INSERT INTO t VALUES (1)"] rfl).1.mpr (by decide)
  · exact (((c1_getProxyFromSQL_classifies Mtest "BAD").2 (errorsNew "syntax error")
      rfl).2 dBoth []).1

/-- C10: every successful classification is exactly Read or exactly Write,
never any other DBProxies value, so the default "error getting db proxy"
branch of Query and QueryRow cannot be reached for successfully parsed SQL. -/
theorem c10_proxy_read_or_write (M : Model) (sql : String) (r : DBProxies)
    (h : getProxyFromSQL M sql = .ok r) : r = Read ∨ r = Write := by
  unfold getProxyFromSQL at h
  cases hp : M.parse sql with
  | error e =>
    rw [hp] at h
    cases h
  | ok stmts =>
    rw [hp] at h
    dsimp only at h
    split at h
    · injection h with h
      exact Or.inr h.symm
    · injection h with h
      exact Or.inl h.symm

/-- C10 witness: the classifier evaluated on a concrete SELECT yields Read,
which the theorem places in the two-element role set. -/
theorem c10_witness :
    getProxyFromSQL Mtest "SELECT 1" = .ok Read ∧ (Read = Read ∨ Read = Write) :=
  ⟨rfl, c10_proxy_read_or_write Mtest "SELECT 1" Read rfl⟩

/-- C2: Write-classified SQL dispatches Query/QueryRow to the writer pool,
returning ErrWriterNotCreated when that pool is absent; symmetrically,
Read-classified SQL dispatches to the reader pool, returning
ErrReaderNotCreated when it is absent; when the selected pool is present the
call is exactly that pool's native query/queryRow. -/
theorem c2_query_routes_by_classification (M : Model) (d : AWSDB M)
    (sql : String) (args : List M.Arg) :
    (getProxyFromSQL M sql = .ok Write →
      (d.writer = none → d.Query sql args = .error ErrWriterNotCreated ∧
        d.QueryRow sql args = .dbProxyError ErrWriterNotCreated) ∧
      (∀ w, d.writer = some w → d.Query sql args = M.poolQuery w sql args ∧
        d.QueryRow sql args = .poolRow (M.poolQueryRow w sql args))) ∧
    (getProxyFromSQL M sql = .ok Read →
      (d.reader = none → d.Query sql args = .error ErrReaderNotCreated ∧
        d.QueryRow sql args = .dbProxyError ErrReaderNotCreated) ∧
      (∀ r, d.reader = some r → d.Query sql args = M.poolQuery r sql args ∧
        d.QueryRow sql args = .poolRow (M.poolQueryRow r sql args))) := by
  refine ⟨fun hc => ⟨fun hw => ⟨?_, ?_⟩, fun w hw => ⟨?_, ?_⟩⟩,
    fun hc => ⟨fun hr => ⟨?_, ?_⟩, fun r hr => ⟨?_, ?_⟩⟩⟩
  · unfold AWSDB.Query
    simp only [hc]
    rw [if_neg write_ne_read, if_pos trivial]
    simp only [hw]
  · unfold AWSDB.QueryRow
    simp only [hc]
    rw [if_neg write_ne_read, if_pos trivial]
    simp only [hw]
  · unfold AWSDB.Query
    simp only [hc]
    rw [if_neg write_ne_read, if_pos trivial]
    simp only [hw]
  · unfold AWSDB.QueryRow
    simp only [hc]
    rw [if_neg write_ne_read, if_pos trivial]
    simp only [hw]
  · unfold AWSDB.Query
    simp only [hc]
    rw [if_pos trivial]
    simp only [hr]
  · unfold AWSDB.QueryRow
    simp only [hc]
    rw [if_pos trivial]
    simp only [hr]
  · unfold AWSDB.Query
    simp only [hc]
    rw [if_pos trivial]
    simp only [hr]
  · unfold AWSDB.QueryRow
    simp only [hc]
    rw [if_pos trivial]
    simp only [hr]

/-- C2 witness: with only a writer pool, a SELECT returns the reader-absent
sentinel; with both pools, an INSERT runs the writer pool's native query. -/
theorem c2_witness :
    dWriteOnly.Query "SELECT 1" [] = .error ErrReaderNotCreated ∧
    dBoth.Query "INSERT INTO t VALUES (1)" [] =
      Mtest.poolQuery 2 "INSERT INTO t VALUES (1)" [] :=
  ⟨(((c2_query_routes_by_classification Mtest dWriteOnly "SELECT 1" []).2
      rfl).1 rfl).1,
   (((c2_query_routes_by_classification Mtest dBoth
      "INSERT INTO t VALUES (1)" []).1 rfl).2 2 rfl).1⟩

/-- C3: Exec, Begin, and BeginFunc always target the writer pool, whatever
the SQL or work supplied: they return the writer-absent sentinel when the
writer is nil (for every pool behaviour, so no pool is contacted), and
otherwise are exactly the writer pool's native operation. -/
theorem c3_exec_begin_always_writer (M : Model) (d : AWSDB M) (sql : String)
    (args : List M.Arg) (f : M.Tx → Option GoError) :
    (d.writer = none → d.Exec sql args = .error ErrWriterNotCreated ∧
      d.Begin = .error ErrWriterNotCreated ∧
      d.BeginFunc f = some ErrWriterNotCreated) ∧
    (∀ w, d.writer = some w → d.Exec sql args = M.poolExec w sql args ∧
      d.Begin = M.poolBegin w ∧ d.BeginFunc f = M.poolBeginFunc w f) := by
  refine ⟨fun hw => ⟨?_, ?_, ?_⟩, fun w hw => ⟨?_, ?_, ?_⟩⟩
  · unfold AWSDB.Exec
    simp only [hw]
  · unfold AWSDB.Begin
    simp only [hw]
  · unfold AWSDB.BeginFunc
    simp only [hw]
  · unfold AWSDB.Exec
    simp only [hw]
  · unfold AWSDB.Begin
    simp only [hw]
  · unfold AWSDB.BeginFunc
    simp only [hw]

/-- C3 witness: on the pool-less connector, Exec, Begin, and BeginFunc all
return the writer-absent sentinel. -/
theorem c3_witness :
    dNone.Exec "SELECT 1" [] = .error ErrWriterNotCreated ∧
    dNone.Begin = .error ErrWriterNotCreated ∧
    dNone.BeginFunc (fun _ => none) = some ErrWriterNotCreated :=
  (c3_exec_begin_always_writer Mtest dNone "SELECT 1" [] (fun _ => none)).1 rfl

/-- C4: when classification fails or the required pool is absent, QueryRow
returns a DBProxyError row (a total, non-nil row value) whose Scan yields the
wrapped parse error or the matching absent-pool sentinel: the error is
deferred until the caller reads the result. -/
theorem c4_queryRow_defers_errors (M : Model) (d : AWSDB M) (sql : String)
    (args : List M.Arg) :
    (∀ e, M.parse sql = .error e →
      d.QueryRow sql args = .dbProxyError (wrapParseErr e) ∧
      (d.QueryRow sql args).scan = some (wrapParseErr e)) ∧
    (getProxyFromSQL M sql = .ok Read → d.reader = none →
      d.QueryRow sql args = .dbProxyError ErrReaderNotCreated ∧
      (d.QueryRow sql args).scan = some ErrReaderNotCreated) ∧
    (getProxyFromSQL M sql = .ok Write → d.writer = none →
      d.QueryRow sql args = .dbProxyError ErrWriterNotCreated ∧
      (d.QueryRow sql args).scan = some ErrWriterNotCreated) := by
  refine ⟨fun e he => ?_, fun hc hr => ?_, fun hc hw => ?_⟩
  · have h : d.QueryRow sql args = .dbProxyError (wrapParseErr e) := by
      unfold AWSDB.QueryRow getProxyFromSQL
      simp only [he]
    exact ⟨h, by rw [h]; rfl⟩
  · have h : d.QueryRow sql args = .dbProxyError ErrReaderNotCreated := by
      unfold AWSDB.QueryRow
      simp only [hc]
      rw [if_pos trivial]
      simp only [hr]
    exact ⟨h, by rw [h]; rfl⟩
  · have h : d.QueryRow sql args = .dbProxyError ErrWriterNotCreated := by
      unfold AWSDB.QueryRow
      simp only [hc]
      rw [if_neg write_ne_read, if_pos trivial]
      simp only [hw]
    exact ⟨h, by rw [h]; rfl⟩

/-- C4 witness: a SELECT against a writer-only connector yields a row whose
Scan is the reader-absent sentinel, and an unparsable string yields a row
whose Scan is the wrapped parse error. -/
theorem c4_witness :
    (dWriteOnly.QueryRow "SELECT 1" []).scan = some ErrReaderNotCreated ∧
    (dBoth.QueryRow "BAD" []).scan =
      some (wrapParseErr (errorsNew "syntax error")) :=
  ⟨(((c4_queryRow_defers_errors Mtest dWriteOnly "SELECT 1" []).2.1 rfl) rfl).2,
   (((c4_queryRow_defers_errors Mtest dBoth "BAD" []).1
      (errorsNew "syntax error") rfl)).2⟩

/-- C5: for every role other than Read, Write, or ReadAndWrite,
NewConnection returns the configuration error immediately, leaves the
connector unchanged, and performs no network round trip at all (no secret
fetch, no pool open, no liveness check): its network-event trace is empty. -/
theorem c5_invalid_role_no_io (M : Model) (d : AWSDB M) (dp : DBProxies)
    (h1 : ¬ dp = Read) (h2 : ¬ dp = Write) (h3 : ¬ dp = ReadAndWrite) :
    d.NewConnection dp =
      (d, some (errorsNew "read, write, or readAndWrite not provided"), []) := by
  unfold AWSDB.NewConnection
  rw [if_neg h1, if_neg h2, if_neg h3]

/-- C5 witness: the role string used by the repository's own test,
"not read or write", yields exactly the configuration error with an
unchanged connector and an empty network trace. -/
theorem c5_witness :
    dNone.NewConnection "not read or write" =
      (dNone, some (errorsNew "read, write, or readAndWrite not provided"), []) :=
  c5_invalid_role_no_io Mtest dNone "not read or write"
    (by decide) (by decide) (by decide)

/-- C9: the BeforeConnect callback mints a token only when the current time
is strictly after the cached expiry (when it is not, the callback leaves the
password and expiry untouched for every possible token provider, so no mint
is requested); on a mint it installs the token as the connection password
and recomputes the cached expiry as 890 seconds from now, which is strictly
earlier than the 900-second (15-minute) point at which the authority would
reject the token; a mint failure aborts the connection attempt with that
error. -/
theorem c9_token_lazy_refresh (getTok : Except GoError String)
    (now now2 exp : Int) (password : String) :
    (¬ exp < now → ∀ g : Except GoError String,
      beforeConnect g now now2 password exp = .ok (password, exp)) ∧
    (exp < now → ∀ e, getTok = .error e →
      beforeConnect getTok now now2 password exp = .error e) ∧
    (exp < now → ∀ tok, getTok = .ok tok →
      beforeConnect getTok now now2 password exp = .ok (tok, now2 + 890) ∧
      now2 + 890 < now2 + 900) := by
  refine ⟨fun h g => ?_, fun h e he => ?_, fun h tok ht => ?_⟩
  · unfold beforeConnect
    rw [if_neg h]
  · unfold beforeConnect
    rw [if_pos h, he]
  · refine ⟨?_, by omega⟩
    unfold beforeConnect
    rw [if_pos h, ht]

/-- C9 witness: with the cached expiry at second 5 and the clock at second
10, the callback mints and caches expiry 900 = 10 + 890; with the expiry at
second 20 it leaves the cached state alone. -/
theorem c9_witness :
    beforeConnect (.ok "token") 10 10 "foo" 5 = .ok ("token", 900) ∧
    beforeConnect (.ok "token") 10 10 "foo" 20 = .ok ("foo", 20) :=
  ⟨((c9_token_lazy_refresh (.ok "token") 10 10 5 "foo").2.2 (by decide)
      "token" rfl).1,
   (c9_token_lazy_refresh (.ok "token") 10 10 20 "foo").1 (by decide)
      (.ok "token")⟩

section ConnectHelpers

/-- Helper: ReadAndWrite differs from Read. -/
theorem raw_ne_read : ¬ (ReadAndWrite = Read) := by decide

/-- Helper: ReadAndWrite differs from Write. -/
theorem raw_ne_write : ¬ (ReadAndWrite = Write) := by decide

/-- Helper: connect for the Read role stops at a secret-fetch failure,
touching no pool field. -/
theorem connect_read_fetch_err {M : Model} (d : AWSDB M) (e : GoError)
    (h : M.getSecret (secretNames Read) = .error e) :
    d.connect Read = (d, some e, [.secretFetch (secretNames Read)]) := by
  unfold AWSDB.connect
  simp only [h]

/-- Helper: connect for the Read role stores the nil pool of a failed open
in the reader field and reports the open failure. -/
theorem connect_read_open_err {M : Model} (d : AWSDB M) (rs : M.Secret)
    (e : GoError) (hs : M.getSecret (secretNames Read) = .ok rs)
    (ho : M.dbOpen rs = .error e) :
    d.connect Read = ({ d with reader := none }, some e,
      [.secretFetch (secretNames Read), .poolOpen Read]) := by
  unfold AWSDB.connect
  simp only [hs, ho]
  rw [if_pos trivial]

/-- Helper: connect for the Read role keeps the opened pool installed in the
reader field when the liveness check fails, reporting the ping failure. -/
theorem connect_read_ping_err {M : Model} (d : AWSDB M) (rs : M.Secret)
    (p : M.Pool) (e : GoError) (hs : M.getSecret (secretNames Read) = .ok rs)
    (ho : M.dbOpen rs = .ok p) (hp : M.poolPing p = some e) :
    d.connect Read = ({ d with reader := some p }, some e,
      [.secretFetch (secretNames Read), .poolOpen Read, .ping Read]) := by
  unfold AWSDB.connect
  simp only [hs, ho, hp]
  rw [if_pos trivial]

/-- Helper: a fully successful connect for the Write role installs the
opened pool in the writer field and reports no error. -/
theorem connect_write_ok {M : Model} (d : AWSDB M) (rs : M.Secret)
    (p : M.Pool) (hs : M.getSecret (secretNames Write) = .ok rs)
    (ho : M.dbOpen rs = .ok p) (hp : M.poolPing p = none) :
    d.connect Write = ({ d with writer := some p }, none,
      [.secretFetch (secretNames Write), .poolOpen Write, .ping Write]) := by
  unfold AWSDB.connect
  simp only [hs, ho, hp]
  rw [if_neg write_ne_read, if_pos trivial]

/-- Helper: connect for the Write role stops at a secret-fetch failure,
touching no pool field. -/
theorem connect_write_fetch_err {M : Model} (d : AWSDB M) (e : GoError)
    (h : M.getSecret (secretNames Write) = .error e) :
    d.connect Write = (d, some e, [.secretFetch (secretNames Write)]) := by
  unfold AWSDB.connect
  simp only [h]

/-- Helper: connect for the Write role stores the nil pool of a failed open
in the writer field and reports the open failure. -/
theorem connect_write_open_err {M : Model} (d : AWSDB M) (rs : M.Secret)
    (e : GoError) (hs : M.getSecret (secretNames Write) = .ok rs)
    (ho : M.dbOpen rs = .error e) :
    d.connect Write = ({ d with writer := none }, some e,
      [.secretFetch (secretNames Write), .poolOpen Write]) := by
  unfold AWSDB.connect
  simp only [hs, ho]
  rw [if_neg write_ne_read, if_pos trivial]

/-- Helper: connect for the Write role keeps the opened pool installed in
the writer field when the liveness check fails, reporting the ping
failure. -/
theorem connect_write_ping_err {M : Model} (d : AWSDB M) (rs : M.Secret)
    (p : M.Pool) (e : GoError) (hs : M.getSecret (secretNames Write) = .ok rs)
    (ho : M.dbOpen rs = .ok p) (hp : M.poolPing p = some e) :
    d.connect Write = ({ d with writer := some p }, some e,
      [.secretFetch (secretNames Write), .poolOpen Write, .ping Write]) := by
  unfold AWSDB.connect
  simp only [hs, ho, hp]
  rw [if_neg write_ne_read, if_pos trivial]

/-- Helper: NewConnection for the Read role is exactly the Read connect. -/
theorem newConnection_read {M : Model} (d : AWSDB M) :
    d.NewConnection Read = d.connect Read := by
  unfold AWSDB.NewConnection
  rw [if_pos rfl]

/-- Helper: NewConnection for the Write role is exactly the Write connect. -/
theorem newConnection_write {M : Model} (d : AWSDB M) :
    d.NewConnection Write = d.connect Write := by
  unfold AWSDB.NewConnection
  rw [if_neg write_ne_read, if_pos rfl]

end ConnectHelpers

/-- A model identical to the toy instantiation except that every liveness
check fails: the secret fetch and the pool open succeed, the ping reports
connection refused. -/
@[reducible] def MpingFail : Model :=
  { Mtest with poolPing := fun _ => some (errorsNew "connection refused") }

/-- An empty connector over the failing-ping model. -/
def dPing : AWSDB MpingFail := ⟨none, none⟩

/-- C6 counterexample: with a liveness check that fails after a successful
secret fetch and pool open, NewConnection(Read) returns the ping failure,
yet the reader pool field does not remain absent — the opened, unvalidated
pool is left installed, contradicting the claim that on any failure the
corresponding pool field of the AWSDB remains absent. -/
theorem c6_counterexample :
    (dPing.NewConnection Read).2.1 = some (errorsNew "connection refused") ∧
    ¬ ((dPing.NewConnection Read).1.reader = none) := by
  exact ⟨rfl, by decide⟩

/-- C6 amended: a failed NewConnection reports the first failure, and for
either role the requested pool field's state depends on the failing stage:
after a secret-fetch failure the role's field is untouched, after a
pool-open failure it holds the nil pool (so remains absent), but after a
liveness-check failure the opened pool remains installed in the role's
field; moreover in a ReadAndWrite call whose Read half fails at the secret
fetch while the Write half succeeds, the overall call returns the Read
failure yet the writer pool remains installed and caller-visible. -/
theorem c6_amended_failure_state (M : Model) (d : AWSDB M) :
    (∀ e, M.getSecret (secretNames Read) = .error e →
      (d.NewConnection Read).2.1 = some e ∧
      (d.NewConnection Read).1.reader = d.reader) ∧
    (∀ rs e, M.getSecret (secretNames Read) = .ok rs →
      M.dbOpen rs = .error e →
      (d.NewConnection Read).2.1 = some e ∧
      (d.NewConnection Read).1.reader = none) ∧
    (∀ rs p e, M.getSecret (secretNames Read) = .ok rs →
      M.dbOpen rs = .ok p → M.poolPing p = some e →
      (d.NewConnection Read).2.1 = some e ∧
      (d.NewConnection Read).1.reader = some p) ∧
    (∀ e, M.getSecret (secretNames Write) = .error e →
      (d.NewConnection Write).2.1 = some e ∧
      (d.NewConnection Write).1.writer = d.writer) ∧
    (∀ rs e, M.getSecret (secretNames Write) = .ok rs →
      M.dbOpen rs = .error e →
      (d.NewConnection Write).2.1 = some e ∧
      (d.NewConnection Write).1.writer = none) ∧
    (∀ rs p e, M.getSecret (secretNames Write) = .ok rs →
      M.dbOpen rs = .ok p → M.poolPing p = some e →
      (d.NewConnection Write).2.1 = some e ∧
      (d.NewConnection Write).1.writer = some p) ∧
    (∀ e rs p, M.getSecret (secretNames Read) = .error e →
      M.getSecret (secretNames Write) = .ok rs →
      M.dbOpen rs = .ok p → M.poolPing p = none →
      (d.NewConnection ReadAndWrite).2.1 = some e ∧
      (d.NewConnection ReadAndWrite).1.writer = some p) := by
  refine ⟨fun e h => ?_, fun rs e hs ho => ?_, fun rs p e hs ho hp => ?_,
    fun e h => ?_, fun rs e hs ho => ?_, fun rs p e hs ho hp => ?_,
    fun e rs p h hs ho hp => ?_⟩
  · rw [newConnection_read, connect_read_fetch_err d e h]
    exact ⟨rfl, rfl⟩
  · rw [newConnection_read, connect_read_open_err d rs e hs ho]
    exact ⟨rfl, rfl⟩
  · rw [newConnection_read, connect_read_ping_err d rs p e hs ho hp]
    exact ⟨rfl, rfl⟩
  · rw [newConnection_write, connect_write_fetch_err d e h]
    exact ⟨rfl, rfl⟩
  · rw [newConnection_write, connect_write_open_err d rs e hs ho]
    exact ⟨rfl, rfl⟩
  · rw [newConnection_write, connect_write_ping_err d rs p e hs ho hp]
    exact ⟨rfl, rfl⟩
  · unfold AWSDB.NewConnection
    rw [if_neg raw_ne_read, if_neg raw_ne_write, if_pos rfl]
    simp only [connect_read_fetch_err d e h, connect_write_ok d rs p hs ho hp]
    refine ⟨?_, ?_⟩ <;> trivial

/-- C6 amended witness: on the failing-ping model, NewConnection(Read)
reports the refused connection while leaving the opened pool installed in
the reader field, and NewConnection(Write) likewise leaves the opened pool
installed in the writer field. -/
theorem c6_amended_witness :
    ((dPing.NewConnection Read).2.1 = some (errorsNew "connection refused") ∧
      (dPing.NewConnection Read).1.reader = some 7) ∧
    ((dPing.NewConnection Write).2.1 = some (errorsNew "connection refused") ∧
      (dPing.NewConnection Write).1.writer = some 7) :=
  ⟨(c6_amended_failure_state MpingFail dPing).2.2.1 () 7
      (errorsNew "connection refused") rfl rfl rfl,
   (c6_amended_failure_state MpingFail dPing).2.2.2.2.2.1 () 7
      (errorsNew "connection refused") rfl rfl rfl⟩

/-- Helper: appending a nonempty string on the left changes a string, so the
message built by the %v wrap is never the cause's own message. -/
theorem wrapParseErr_ne (e : GoError) :
    ¬ (GoError.leaf ("could not parse sql string: " ++ e.message) = e) := by
  intro heq
  cases e with
  | wrap m c => exact GoError.noConfusion heq
  | leaf m =>
    injection heq with hm
    have hlen := congrArg String.length hm
    rw [String.length_append] at hlen
    have h28 : ("could not parse sql string: " : String).length = 28 := rfl
    simp only [GoError.message] at hlen
    omega

/-- C8 counterexample: the error Query returns for an unparsable statement
carries contextual text, but identity-based matching in the style of
errors.Is does not reach the original parse error: the wrap was built with
the %v verb, which flattens the cause to text and keeps no unwrap chain. -/
theorem c8_counterexample :
    dBoth.Query "BAD" [] = .error (wrapParseErr (errorsNew "syntax error")) ∧
    errorsIs (wrapParseErr (errorsNew "syntax error"))
      (errorsNew "syntax error") = false := by
  exact ⟨rfl, by decide⟩

/-- C8 amended: a parse failure surfaced by Query or QueryRow is wrapped
with contextual text that embeds the cause's rendered message (Query returns
the wrapped error, QueryRow a DBProxyError row holding it), but the cause
itself is not preserved for identity-based matching — errors.Is-style
unwrapping of the returned error never reaches the original parse error,
because the wrap uses message formatting (%v) rather than error wrapping
(%w). -/
theorem c8_amended_wrap_loses_identity (M : Model) (d : AWSDB M)
    (sql : String) (args : List M.Arg) (e : GoError)
    (h : M.parse sql = .error e) :
    d.Query sql args = .error (wrapParseErr e) ∧
    d.QueryRow sql args = .dbProxyError (wrapParseErr e) ∧
    (wrapParseErr e).message = "could not parse sql string: " ++ e.message ∧
    errorsIs (wrapParseErr e) e = false := by
  refine ⟨?_, ?_, rfl, ?_⟩
  · unfold AWSDB.Query getProxyFromSQL
    simp only [h]
  · unfold AWSDB.QueryRow getProxyFromSQL
    simp only [h]
  · unfold wrapParseErr errorsIs
    exact decide_eq_false (wrapParseErr_ne e)

/-- C8 amended witness: for the unparsable toy string, Query returns the
wrapped error and QueryRow a DBProxyError row holding it; the wrapped error
has the contextual message, and matching it against the original parse
error fails. -/
theorem c8_amended_witness :
    dReadOnly.Query "BAD" [] = .error (wrapParseErr (errorsNew "syntax error")) ∧
    dReadOnly.QueryRow "BAD" [] =
      .dbProxyError (wrapParseErr (errorsNew "syntax error")) ∧
    (wrapParseErr (errorsNew "syntax error")).message =
      "could not parse sql string: " ++ (errorsNew "syntax error").message ∧
    errorsIs (wrapParseErr (errorsNew "syntax error"))
      (errorsNew "syntax error") = false :=
  c8_amended_wrap_loses_identity Mtest dReadOnly "BAD" []
    (errorsNew "syntax error") rfl
